import Mathlib

/-!
Shallow embedding of `GeoData.cpp` (TheFoundryVisionmongers/mariusdplugins):
the Mari USD-reader geometry extraction (`GeoData::GeoData`), its
boolean-convertibility check (`GeoData::operator bool`), the path filter
(`GeoData::TestPath`, `GeoData::InitializePathSubstringLists`), and the
subdivision-metadata mapping.

Modelling conventions:
  * C++ `float` coordinate values are modelled as `ℚ`; no claim computes
    with coordinate values, only with array lengths and frame keys.
  * USD attribute reads (external scene-graph collaborator, fallible,
    parameterized by "earliest sample" vs "default" time) are modelled as an
    environment `Env` of `Option`-returning read functions.
  * `std::map<int, std::vector<float>> m_vertices` is modelled as an
    association list sorted by key (`mapInsert` keeps it sorted, overwriting
    an existing key, exactly as `m_vertices[frame] = points` does);
    `begin()` is the head of the sorted list.
  * The local-to-world transform baking (GeoData.cpp lines 243-264) calls
    the external `UsdGeomXformCache` collaborator; its net effect on one
    frame's flattened point list is modelled by the environment function
    `applyXform` (identity transforms leave the list unchanged).
  * `host.trace` has no effect on program state and is dropped; the
    caller-supplied `std::vector<std::string>& log` is the returned
    `List String`.
-/

/-- The two time-sourcing modes a USD attribute read can use in this file:
`UsdTimeCode::EarliestTime()` versus the evaluation default (no time arg). -/
inductive TimeChoice : Type
  | earliest : TimeChoice
  | default : TimeChoice
deriving DecidableEq

/-- The `TfToken` values `GeoData.cpp` compares against (members of
`UsdGeomTokens`), plus a catch-all for any other token string. -/
inductive UsdToken : Type
  | tnone : UsdToken
  | catmullClark : UsdToken
  | loop : UsdToken
  | bilinear : UsdToken
  | edgeAndCorner : UsdToken
  | edgeOnly : UsdToken
  | all : UsdToken
  | boundaries : UsdToken
  | cornersPlus1 : UsdToken
  | cornersPlus2 : UsdToken
  | vertex : UsdToken
  | faceVarying : UsdToken
  | otherToken : String → UsdToken
deriving DecidableEq

/-- The `SdfValueTypeName`s the UV logic compares against. -/
inductive SdfTypeName : Type
  | TexCoord2fArray : SdfTypeName
  | Float2Array : SdfTypeName
  | otherType : SdfTypeName
deriving DecidableEq

/-- A UV-set primvar as seen through `UsdGeomPrimvar`: declared type and
interpolation, plus fallible reads of its value array (`Get`) and its index
array (`GetIndices`) at either time choice. -/
structure UvPrimvarData : Type where
  typeName : SdfTypeName
  interpolation : UsdToken
  values : TimeChoice → Option (List (ℚ × ℚ))
  indices : TimeChoice → Option (List Int)

/-- The scene-graph read environment for one `GeoData` construction: every
external read the constructor performs, as fallible functions. -/
structure Env : Type where
  /-- whether `UsdGeomMesh mesh(prim)` yields a valid mesh schema (line 84). -/
  isMesh : Bool
  /-- `prim.GetPath().GetText()`. -/
  primPath : String
  /-- `prim.GetPath().GetName()` (used by the vertex-read failure log). -/
  primName : String
  /-- `prim.GetTypeName().GetText()`. -/
  primType : String
  /-- `mesh.GetFaceVertexIndicesAttr().GetNumTimeSamples()` (line 91). -/
  numFaceIndexSamples : Nat
  /-- `mesh.GetFaceVertexIndicesAttr().Get(...)` at either time choice. -/
  readFaceVertexIndices : TimeChoice → Option (List Int)
  /-- `mesh.GetFaceVertexCountsAttr().Get(...)` at either time choice. -/
  readFaceVertexCounts : TimeChoice → Option (List Int)
  /-- `mesh.GetPrimvar(TfToken(uvSet))`: `none` when the primvar is invalid. -/
  uvPrimvar : Option UvPrimvarData
  /-- `mesh.GetNormalsAttr().Get(...)` at either time choice. -/
  readNormals : TimeChoice → Option (List (ℚ × ℚ × ℚ))
  /-- `mesh.GetPointsAttr().Get(&pointsVt, frameSample)` at an explicit frame. -/
  readPoints : Nat → Option (List (ℚ × ℚ × ℚ))
  /-- Net effect of transform baking (lines 243-264) on one frame's flattened
  point list: local-to-world transform at that frame's time, optionally
  re-based to the model prim, applied pointwise when not the identity. -/
  applyXform : Nat → List ℚ → List ℚ
  /-- `mesh.GetCreaseIndicesAttr().Get(...)`. -/
  creaseIndices : Option (List Int)
  /-- `mesh.GetCreaseLengthsAttr().Get(...)`. -/
  creaseLengths : Option (List Int)
  /-- `mesh.GetCreaseSharpnessesAttr().Get(...)`. -/
  creaseSharpness : Option (List ℚ)
  /-- `mesh.GetCornerIndicesAttr().Get(...)`. -/
  cornerIndices : Option (List Int)
  /-- `mesh.GetCornerSharpnessesAttr().Get(...)`. -/
  cornerSharpness : Option (List ℚ)
  /-- `mesh.GetHoleIndicesAttr().Get(...)`. -/
  holeIndices : Option (List Int)
  /-- `mesh.GetSubdivisionSchemeAttr().Get(...)`. -/
  subdivisionScheme : Option UsdToken
  /-- `mesh.GetInterpolateBoundaryAttr().Get(...)`. -/
  interpolateBoundary : Option UsdToken
  /-- `mesh.GetFaceVaryingLinearInterpolationAttr().Get(...)`. -/
  faceVaryingLinearInterpolation : Option UsdToken

/-- The Mesh Snapshot: the data members of class `GeoData`, with the
constructor's init values (lines 77-81) and default-empty containers. -/
structure GeoData : Type where
  m_vertexIndices : List Int := []
  m_faceCounts : List Int := []
  m_faceSelectionIndices : List Int := []
  m_vertices : List (Nat × List ℚ) := []
  m_normalIndices : List Int := []
  m_normals : List ℚ := []
  m_uvIndices : List Int := []
  m_uvs : List ℚ := []
  m_creaseIndices : List Int := []
  m_creaseLengths : List Int := []
  m_creaseSharpness : List ℚ := []
  m_cornerIndices : List Int := []
  m_cornerSharpness : List ℚ := []
  m_holeIndices : List Int := []
  m_isSubdivMesh : Bool := false
  m_subdivisionScheme : String := ""
  m_interpolateBoundary : Int := 0
  m_faceVaryingLinearInterpolation : Int := 0
  m_propagateCorner : Int := 0
deriving DecidableEq

/-- Interleave (x, y, z) triples into a flat list, as the copy loops at
lines 236-241 and 202-207 do. -/
def flatten3 (vs : List (ℚ × ℚ × ℚ)) : List ℚ :=
  vs.foldr (fun p acc => p.1 :: p.2.1 :: p.2.2 :: acc) []

/-- Interleave (u, v) pairs into a flat list, as the loop at lines 166-170. -/
def flatten2 (vs : List (ℚ × ℚ)) : List ℚ :=
  vs.foldr (fun p acc => p.1 :: p.2 :: acc) []

/-- The identity index sequence `0, 1, ..., n-1` pushed as ints (the loops at
lines 126-129, 158-161, 210-213). -/
def identityIndices (n : Nat) : List Int :=
  (List.range n).map (fun x => (x : Int))

/-- `m_vertices[frameSample] = points` on the key-sorted association list
modelling `std::map<int, std::vector<float>>`: insert in key order,
overwriting an existing entry for the same key. -/
def mapInsert (k : Nat) (v : List ℚ) : List (Nat × List ℚ) → List (Nat × List ℚ)
  | [] => [(k, v)]
  | (k', v') :: rest =>
    if k < k' then (k, v) :: (k', v') :: rest
    else if k = k' then (k, v) :: rest
    else (k', v') :: mapInsert k v rest

/-- Line 91: `bool isTopologyVarying =
mesh.GetFaceVertexIndicesAttr().GetNumTimeSamples() >= 1;`. -/
def isTopologyVaryingOf (numSamples : Nat) : Bool :=
  decide (numSamples ≥ 1)

/-- The time choice the topology reads use (lines 100, 113, and the
conditional reads at 148 and 198): earliest sample when topology-varying,
the evaluation default otherwise. -/
def topoTimeChoice (numSamples : Nat) : TimeChoice :=
  if isTopologyVaryingOf numSamples then TimeChoice.earliest else TimeChoice.default

/-- Modelled from the spec (§4.2 step 6c): the time-sourcing rule the spec
claims for the UV value-array read, namely "the same time-sourcing rule as
topology".  Kept separate from the code's behaviour (line 146 always passes
`UsdTimeCode::EarliestTime()`) so the two can be compared. -/
def uvValuesTimeChoiceClaimed (isTopologyVarying : Bool) : TimeChoice :=
  if isTopologyVarying then TimeChoice.earliest else TimeChoice.default

/-- Lines 141-142: the interpolation/type acceptance test for a UV primvar. -/
def uvAccepted (readFloat2AsUV : Bool) (pv : UvPrimvarData) : Bool :=
  (decide (pv.interpolation = UsdToken.vertex)
      || decide (pv.interpolation = UsdToken.faceVarying))
    && (decide (pv.typeName = SdfTypeName.TexCoord2fArray)
        || (readFloat2AsUV && decide (pv.typeName = SdfTypeName.Float2Array)))

/-- Lines 97-130: read face vertex indices (mandatory), face counts
(mandatory), and generate the face selection identity indices.  An `error`
result is the early `return` carrying the partial snapshot and the log line. -/
def readTopologySteps (env : Env) (tc : TimeChoice) (g : GeoData) :
    Except (GeoData × List String) GeoData :=
  match env.readFaceVertexIndices tc with
  | Option.none => .error (g, ["Failed getting faces on " ++ env.primPath])
  | Option.some vertsIndicesArray =>
    let g := { g with m_vertexIndices := vertsIndicesArray }
    match env.readFaceVertexCounts tc with
    | Option.none => .error (g, ["Failed getting faces on " ++ env.primPath])
    | Option.some nvertsPerFaceArray =>
      let g := { g with m_faceCounts := nvertsPerFaceArray }
      .ok { g with m_faceSelectionIndices := identityIndices g.m_faceCounts.length }

/-- Lines 148-162: resolve `m_uvIndices` for an accepted, readable UV
primvar: the primvar's own index array read under the topology time-sourcing
rule when present, else the identity sequence over `m_vertexIndices`. -/
def uvIndicesStep (uvPrimvar : UvPrimvarData) (isTopologyVarying : Bool)
    (g : GeoData) : GeoData :=
  match uvPrimvar.indices
      (if isTopologyVarying then TimeChoice.earliest else TimeChoice.default) with
  | Option.some indices => { g with m_uvIndices := indices }
  | Option.none => { g with m_uvIndices := identityIndices g.m_vertexIndices.length }

/-- The snapshot state after a successful UV resolution (lines 148-170):
resolved `m_uvIndices` plus the interleaved value pairs in `m_uvs`. -/
def uvOkState (uvPrimvar : UvPrimvarData) (isTopologyVarying : Bool)
    (values : List (ℚ × ℚ)) (g : GeoData) : GeoData :=
  { uvIndicesStep uvPrimvar isTopologyVarying g with m_uvs := flatten2 values }

/-- Lines 132-193: UV resolution, performed only when a UV set was requested.
The value array is read at `UsdTimeCode::EarliestTime()` (line 146); only the
`GetIndices` read (line 148) follows the topology time-sourcing rule. -/
def uvResolveStep (env : Env) (uvSet : String) (isTopologyVarying : Bool)
    (readFloat2AsUV : Bool) (g : GeoData) :
    Except (GeoData × List String) GeoData :=
  if uvSet.length > 0 then
    match env.uvPrimvar with
    | Option.none =>
      .error (g, ["Discarding invalid uv set " ++ uvSet ++ " on " ++ env.primPath])
    | Option.some uvPrimvar =>
      if uvAccepted readFloat2AsUV uvPrimvar then
        match uvPrimvar.values TimeChoice.earliest with
        | Option.some values =>
          .ok (uvOkState uvPrimvar isTopologyVarying values g)
        | Option.none =>
          .error (g, ["discarding because could not read uvs on " ++ env.primPath])
      else
        .error (g, ["Discarding because Vertex or Facevarying interpolation is not defined for the "
                      ++ uvSet ++ " uv set on " ++ env.primPath])
  else
    .ok g

/-- Lines 195-215: best-effort normals read; no failure path. -/
def normalsStep (env : Env) (tc : TimeChoice) (g : GeoData) : GeoData :=
  match env.readNormals tc with
  | Option.some normalsVt =>
    { g with
      m_normals := flatten3 normalsVt
      m_normalIndices := identityIndices g.m_vertexIndices.length }
  | Option.none => g

/-- Lines 217-269: per-frame vertex baking.  Each frame's point array is read
at exactly that frame; a failed read is an early `return` keeping every frame
baked so far.  On success the transformed flattened points are stored under
the frame key, overwriting any prior entry. -/
def bakeFramesStep (env : Env) (g : GeoData) : List Nat → Except (GeoData × List String) GeoData
  | [] => .ok g
  | frameSample :: rest =>
    match env.readPoints frameSample with
    | Option.none => .error (g, ["Failed getting faces on " ++ env.primName])
    | Option.some pointsVt =>
      bakeFramesStep env
        { g with
          m_vertices :=
            mapInsert frameSample
              (env.applyXform frameSample (flatten3 pointsVt)) g.m_vertices } rest

/-- Lines 336-340: opportunistic crease-index read. -/
def creaseIndicesStep (env : Env) (g : GeoData) : GeoData :=
  match env.creaseIndices with
  | Option.some a => { g with m_creaseIndices := a }
  | Option.none => g

/-- Lines 342-346: opportunistic crease-length read. -/
def creaseLengthsStep (env : Env) (g : GeoData) : GeoData :=
  match env.creaseLengths with
  | Option.some a => { g with m_creaseLengths := a }
  | Option.none => g

/-- Lines 348-352: opportunistic crease-sharpness read. -/
def creaseSharpnessStep (env : Env) (g : GeoData) : GeoData :=
  match env.creaseSharpness with
  | Option.some a => { g with m_creaseSharpness := a }
  | Option.none => g

/-- Lines 354-358: opportunistic corner-index read. -/
def cornerIndicesStep (env : Env) (g : GeoData) : GeoData :=
  match env.cornerIndices with
  | Option.some a => { g with m_cornerIndices := a }
  | Option.none => g

/-- Lines 360-364: opportunistic corner-sharpness read. -/
def cornerSharpnessStep (env : Env) (g : GeoData) : GeoData :=
  match env.cornerSharpness with
  | Option.some a => { g with m_cornerSharpness := a }
  | Option.none => g

/-- Lines 366-370: opportunistic hole-index read. -/
def holeIndicesStep (env : Env) (g : GeoData) : GeoData :=
  match env.holeIndices with
  | Option.some a => { g with m_holeIndices := a }
  | Option.none => g

/-- Lines 385-396: map the non-"none" subdivision-scheme token onto the fixed
name set; an unrecognized token leaves `m_subdivisionScheme` unchanged. -/
def schemeNameStep (subdivisionScheme : UsdToken) (g : GeoData) : GeoData :=
  if subdivisionScheme = UsdToken.catmullClark then
    { g with m_subdivisionScheme := "catmullClark" }
  else if subdivisionScheme = UsdToken.loop then
    { g with m_subdivisionScheme := "loop" }
  else if subdivisionScheme = UsdToken.bilinear then
    { g with m_subdivisionScheme := "bilinear" }
  else g

/-- Lines 398-413: map the boundary-interpolation token to its integer code. -/
def interpolateBoundaryStep (env : Env) (g : GeoData) : GeoData :=
  match env.interpolateBoundary with
  | Option.some interpolateBoundary =>
    if interpolateBoundary = UsdToken.tnone then
      { g with m_interpolateBoundary := 0 }
    else if interpolateBoundary = UsdToken.edgeAndCorner then
      { g with m_interpolateBoundary := 1 }
    else if interpolateBoundary = UsdToken.edgeOnly then
      { g with m_interpolateBoundary := 2 }
    else g
  | Option.none => g

/-- Lines 415-442: map the face-varying linear-interpolation token to its
integer code, setting `m_propagateCorner` for the cornersPlus variants. -/
def faceVaryingStep (env : Env) (g : GeoData) : GeoData :=
  match env.faceVaryingLinearInterpolation with
  | Option.some fvli =>
    if fvli = UsdToken.all then
      { g with m_faceVaryingLinearInterpolation := 0 }
    else if fvli = UsdToken.tnone then
      { g with m_faceVaryingLinearInterpolation := 2 }
    else if fvli = UsdToken.boundaries then
      { g with m_faceVaryingLinearInterpolation := 3 }
    else if fvli = UsdToken.cornersPlus1 then
      { g with m_faceVaryingLinearInterpolation := 1, m_propagateCorner := 0 }
    else if fvli = UsdToken.cornersPlus2 then
      { g with m_faceVaryingLinearInterpolation := 1, m_propagateCorner := 1 }
    else g
  | Option.none => g

/-- Lines 372-444: read the subdivision-scheme token; "none" marks the mesh
non-subdivideable and short-circuits the whole boundary / face-varying
mapping, any other token marks it a subdivision mesh and runs the name,
boundary and face-varying mappings. -/
def schemePhase (env : Env) (g : GeoData) : GeoData :=
  match env.subdivisionScheme with
  | Option.none => g
  | Option.some subdivisionScheme =>
    if subdivisionScheme = UsdToken.tnone then
      { g with m_isSubdivMesh := false }
    else
      faceVaryingStep env (interpolateBoundaryStep env
        (schemeNameStep subdivisionScheme { g with m_isSubdivMesh := true }))

/-- Lines 334-445: opportunistic crease/corner/hole reads, the re-init
`m_isSubdivMesh = false` (line 372), then the subdivision-scheme phase. -/
def subdivPhase (env : Env) (g : GeoData) : GeoData :=
  schemePhase env
    { holeIndicesStep env (cornerSharpnessStep env (cornerIndicesStep env
        (creaseSharpnessStep env (creaseLengthsStep env (creaseIndicesStep env g)))))
      with m_isSubdivMesh := false }

/-- The snapshot state carried by a pipeline-step result, whether the step
succeeded or early-returned. -/
def stateOf : Except (GeoData × List String) GeoData → GeoData
  | .ok g => g
  | .error (g, _) => g

/-- The five subdivision-metadata members are at their constructor init
values (lines 77-81). -/
def subdivDefaults (g : GeoData) : Prop :=
  g.m_isSubdivMesh = false ∧ g.m_subdivisionScheme = ""
    ∧ g.m_interpolateBoundary = 0 ∧ g.m_faceVaryingLinearInterpolation = 0
    ∧ g.m_propagateCorner = 0

/-- The closed value sets the subdivision-metadata codes can take: boundary
code in {0, 1, 2}, face-varying code in {0, 1, 2, 3}, propagate-corner in
{0, 1}, and the scheme name in the fixed name set or empty. -/
def subdivCodesInRange (g : GeoData) : Prop :=
  (g.m_interpolateBoundary = 0 ∨ g.m_interpolateBoundary = 1 ∨ g.m_interpolateBoundary = 2)
  ∧ (g.m_faceVaryingLinearInterpolation = 0 ∨ g.m_faceVaryingLinearInterpolation = 1
      ∨ g.m_faceVaryingLinearInterpolation = 2 ∨ g.m_faceVaryingLinearInterpolation = 3)
  ∧ (g.m_propagateCorner = 0 ∨ g.m_propagateCorner = 1)
  ∧ (g.m_subdivisionScheme = "" ∨ g.m_subdivisionScheme = "catmullClark"
      ∨ g.m_subdivisionScheme = "loop" ∨ g.m_subdivisionScheme = "bilinear")

/-- `GeoData::GeoData` (lines 68-446): the full construction pipeline.
Returns the snapshot together with the lines appended to the caller-supplied
log collector. -/
def GeoDataCtor (env : Env) (uvSet : String) (frames : List Nat)
    (readFloat2AsUV : Bool) : GeoData × List String :=
  let g0 : GeoData := {}
  if env.isMesh = false then
    (g0, ["Invalid non-mesh prim " ++ env.primPath ++ " of type " ++ env.primType])
  else
    let isTopologyVarying := isTopologyVaryingOf env.numFaceIndexSamples
    let tc := topoTimeChoice env.numFaceIndexSamples
    match readTopologySteps env tc g0 with
    | .error r => r
    | .ok g1 =>
      match uvResolveStep env uvSet isTopologyVarying readFloat2AsUV g1 with
      | .error r => r
      | .ok g2 =>
        let g3 := normalsStep env tc g2
        match bakeFramesStep env g3 frames with
        | .error r => r
        | .ok g4 => (subdivPhase env g4, [])

/-- `GeoData::operator bool` (lines 460-463): `m_vertices.size() > 0 &&
m_vertices.begin()->second.size() > 0 && m_vertexIndices.size() > 0`; the
map's `begin()` is its smallest key, i.e. the head of the sorted list. -/
def GeoData.toBool (g : GeoData) : Bool :=
  decide (g.m_vertices.length > 0)
    && decide (g.m_vertices.headI.2.length > 0)
    && decide (g.m_vertexIndices.length > 0)

/-- `path.find(s) != std::string::npos`: `s` occurs as a contiguous substring
of `path` (scanning each suffix for a prefix match). -/
def containsSubstr (s : List Char) : List Char → Bool
  | [] => s.isPrefixOf []
  | c :: rest => s.isPrefixOf (c :: rest) || containsSubstr s rest

/-- The require-list scan of `GeoData::TestPath` (lines 563-574):
`requiredSubstringFound` starts `true`; each entry sets it to `true` and
breaks on a substring match, else sets it to `false` and continues. -/
def requireScan (path : List Char) : List (List Char) → Bool → Bool
  | [], requiredSubstringFound => requiredSubstringFound
  | s :: rest, _ =>
    if containsSubstr s path then true else requireScan path rest false

/-- The ignore-list scan of `GeoData::TestPath` (lines 581-588): return
`false` on the first ignore entry occurring in the path, else `true`. -/
def ignoreScan (path : List Char) : List (List Char) → Bool
  | [] => true
  | s :: rest => if containsSubstr s path then false else ignoreScan path rest

/-- `GeoData::TestPath` (lines 561-589), with the two process-wide lists
`_requireGeomPathSubstring` / `_ignoreGeomPathSubstring` passed explicitly. -/
def TestPath (requireList ignoreList : List (List Char)) (path : List Char) : Bool :=
  let requiredSubstringFound := requireScan path requireList true
  if requiredSubstringFound = false then false
  else ignoreScan path ignoreList

/-- `TfStringTokenize(value, ",")`: split on the comma delimiter, dropping
empty tokens. -/
def tfStringTokenize (s : List Char) : List (List Char) :=
  (s.splitOn ',').filter (fun t => ¬ t.isEmpty)

/-- `GeoData::InitializePathSubstringLists` (lines 592-608), with the
`getenv` results (`none` = variable absent) and the prior list contents
passed explicitly; returns the new (ignore, require) lists. -/
def InitializePathSubstringLists (ignoreEnv requireEnv : Option (List Char))
    (ignoreList requireList : List (List Char)) :
    List (List Char) × List (List Char) :=
  let ignoreList := match ignoreEnv with
    | Option.some v => tfStringTokenize v
    | Option.none => ignoreList
  let requireList := match requireEnv with
    | Option.some v => tfStringTokenize v
    | Option.none => requireList
  (ignoreList, requireList)

/-- A fully well-behaved single-triangle environment (one face `[0,1,2]`,
three points, identity transform, no UVs, no subdivision attributes), used
as the base for concrete test environments. -/
def baseEnv : Env where
  isMesh := true
  primPath := "/root/mesh"
  primName := "mesh"
  primType := "Mesh"
  numFaceIndexSamples := 0
  readFaceVertexIndices := fun _ => Option.some [0, 1, 2]
  readFaceVertexCounts := fun _ => Option.some [3]
  uvPrimvar := Option.none
  readNormals := fun _ => Option.none
  readPoints := fun _ => Option.some [(0, 0, 0), (1, 0, 0), (0, 1, 0)]
  applyXform := fun _ ps => ps
  creaseIndices := Option.none
  creaseLengths := Option.none
  creaseSharpness := Option.none
  cornerIndices := Option.none
  cornerSharpness := Option.none
  holeIndices := Option.none
  subdivisionScheme := Option.none
  interpolateBoundary := Option.none
  faceVaryingLinearInterpolation := Option.none

/-- Environment whose point read succeeds with an *empty* point array at
frame 1 and a non-empty one at every other frame. -/
def envC1 : Env :=
  { baseEnv with
    readPoints := fun f =>
      if f = 1 then Option.some [] else Option.some [(0, 0, 0)] }

/-- A vertex-interpolated texture-coordinate UV primvar whose value array is
readable at the earliest time sample but not at the evaluation default, and
which carries no index array. -/
def pvNoDefault : UvPrimvarData where
  typeName := SdfTypeName.TexCoord2fArray
  interpolation := UsdToken.vertex
  values := fun tc =>
    if tc = TimeChoice.earliest then Option.some [(0, 0), (1, 0), (0, 1)]
    else Option.none
  indices := fun _ => Option.none

/-- Non-topology-varying environment carrying `pvNoDefault` as the requested
UV set's primvar. -/
def envC4 : Env := { baseEnv with uvPrimvar := Option.some pvNoDefault }

/-- Environment whose face counts `[2]` do not sum to the length of its
vertex-index array `[0, 1, 2]`; every read succeeds. -/
def envC5 : Env :=
  { baseEnv with readFaceVertexCounts := fun _ => Option.some [2] }

/-- Environment for the frame-baking failure scenario: the point read
succeeds at frames 1 and 2 (with distinct arrays) and fails at frame 3. -/
def envC8 : Env :=
  { baseEnv with
    readPoints := fun f =>
      if f = 3 then Option.none
      else if f = 1 then Option.some [(0, 0, 0)]
      else Option.some [(1, 1, 1)] }

/-- Environment carrying the "none" subdivision scheme together with
boundary and face-varying interpolation attributes that would otherwise map
to non-zero codes. -/
def envC7 : Env :=
  { baseEnv with
    subdivisionScheme := Option.some UsdToken.tnone
    interpolateBoundary := Option.some UsdToken.edgeOnly
    faceVaryingLinearInterpolation := Option.some UsdToken.boundaries }

/-- A UV primvar whose value array is unreadable at every time choice. -/
def pvNoValues : UvPrimvarData :=
  { pvNoDefault with values := fun _ => Option.none }

/-- Environment carrying `pvNoValues` as the requested UV set's primvar. -/
def envNoUvValues : Env := { baseEnv with uvPrimvar := Option.some pvNoValues }

theorem isPrefixOf_eq_true_iff (s p : List Char) :
    s.isPrefixOf p = true ↔ ∃ r, p = s ++ r := by
  induction s generalizing p with
  | nil => simp [List.isPrefixOf]
  | cons c cs ih =>
    cases p with
    | nil => simp [List.isPrefixOf]
    | cons d ds =>
      simp only [List.isPrefixOf, Bool.and_eq_true, beq_iff_eq, ih, List.cons_append]
      constructor
      · rintro ⟨hc, r, hr⟩
        exact ⟨r, by rw [hc, hr]⟩
      · rintro ⟨r, hr⟩
        rcases List.cons_eq_cons.mp hr with ⟨hd, hds⟩
        exact ⟨hd.symm, r, hds⟩

theorem containsSubstr_iff (s p : List Char) :
    containsSubstr s p = true ↔ ∃ l r, p = l ++ s ++ r := by
  induction p with
  | nil =>
    simp only [containsSubstr, isPrefixOf_eq_true_iff]
    constructor
    · rintro ⟨r, hr⟩
      exact ⟨[], r, by simpa using hr⟩
    · rintro ⟨l, r, h⟩
      rcases List.append_eq_nil.mp h.symm with ⟨h1, h2⟩
      rcases List.append_eq_nil.mp h1 with ⟨h3, h4⟩
      exact ⟨r, by simp [h2, h4]⟩
  | cons c rest ih =>
    simp only [containsSubstr, Bool.or_eq_true, isPrefixOf_eq_true_iff, ih]
    constructor
    · rintro (⟨r, hr⟩ | ⟨l, r, hlr⟩)
      · exact ⟨[], r, by simpa using hr⟩
      · exact ⟨c :: l, r, by simp [hlr]⟩
    · rintro ⟨l, r, hlr⟩
      cases l with
      | nil => exact Or.inl ⟨r, by simpa using hlr⟩
      | cons c' l' =>
        rcases List.cons_eq_cons.mp hlr with ⟨hc, hrest⟩
        exact Or.inr ⟨l', r, hrest⟩

theorem requireScan_eq_true_iff (path : List Char) :
    ∀ (req : List (List Char)) (b : Bool), req ≠ [] →
      (requireScan path req b = true ↔ ∃ s ∈ req, containsSubstr s path = true) := by
  intro req
  induction req with
  | nil => intro b h; exact absurd rfl h
  | cons s rest ih =>
    intro b _
    by_cases hc : containsSubstr s path = true
    · simp [requireScan, hc]
    · cases rest with
      | nil => simp [requireScan, hc]
      | cons t ts =>
        have hstep : requireScan path (s :: t :: ts) b = requireScan path (t :: ts) false := by
          simp [requireScan, hc]
        rw [hstep, ih false (by simp)]
        constructor
        · rintro ⟨x, hx, hcx⟩
          exact ⟨x, List.mem_cons_of_mem s hx, hcx⟩
        · rintro ⟨x, hx, hcx⟩
          rcases List.mem_cons.mp hx with rfl | hx2
          · exact absurd hcx hc
          · exact ⟨x, hx2, hcx⟩

theorem ignoreScan_eq_true_iff (path : List Char) (ign : List (List Char)) :
    ignoreScan path ign = true ↔ ∀ s ∈ ign, containsSubstr s path = false := by
  induction ign with
  | nil => simp [ignoreScan]
  | cons s rest ih =>
    by_cases hc : containsSubstr s path = true
    · simp [ignoreScan, hc]
    · simp only [Bool.not_eq_true] at hc
      simp [ignoreScan, hc, ih]

theorem readTopologySteps_shape (env : Env) (tc : TimeChoice) (g : GeoData) :
    ∃ vi fc fsi, stateOf (readTopologySteps env tc g) =
      { g with m_vertexIndices := vi, m_faceCounts := fc, m_faceSelectionIndices := fsi } := by
  unfold readTopologySteps
  repeat' split
  all_goals exact ⟨_, _, _, rfl⟩

theorem uvIndicesStep_shape (pv : UvPrimvarData) (isTV : Bool) (g : GeoData) :
    ∃ a, uvIndicesStep pv isTV g = { g with m_uvIndices := a } := by
  unfold uvIndicesStep
  repeat' split
  all_goals exact ⟨_, rfl⟩

theorem uvOkState_shape (pv : UvPrimvarData) (isTV : Bool) (vs : List (ℚ × ℚ)) (g : GeoData) :
    ∃ ui uv, uvOkState pv isTV vs g = { g with m_uvIndices := ui, m_uvs := uv } := by
  obtain ⟨a, ha⟩ := uvIndicesStep_shape pv isTV g
  unfold uvOkState
  rw [ha]
  exact ⟨_, _, rfl⟩

theorem uvResolveStep_shape (env : Env) (uvSet : String) (isTV flag : Bool) (g : GeoData) :
    ∃ ui uv, stateOf (uvResolveStep env uvSet isTV flag g) =
      { g with m_uvIndices := ui, m_uvs := uv } := by
  unfold uvResolveStep
  repeat' split
  all_goals first
    | exact ⟨_, _, rfl⟩
    | exact uvOkState_shape _ isTV _ g

theorem normalsStep_shape (env : Env) (tc : TimeChoice) (g : GeoData) :
    ∃ ns ni, normalsStep env tc g = { g with m_normals := ns, m_normalIndices := ni } := by
  unfold normalsStep
  repeat' split
  all_goals exact ⟨_, _, rfl⟩

theorem bakeFramesStep_shape (env : Env) (frames : List Nat) : ∀ g : GeoData,
    ∃ m, stateOf (bakeFramesStep env g frames) = { g with m_vertices := m } := by
  induction frames with
  | nil => intro g; exact ⟨_, rfl⟩
  | cons f rest ih =>
    intro g
    unfold bakeFramesStep
    cases env.readPoints f with
    | none => exact ⟨_, rfl⟩
    | some pts =>
      obtain ⟨m, hm⟩ := ih { g with
        m_vertices := mapInsert f (env.applyXform f (flatten3 pts)) g.m_vertices }
      exact ⟨m, hm⟩

theorem creaseIndicesStep_shape (env : Env) (g : GeoData) :
    ∃ a, creaseIndicesStep env g = { g with m_creaseIndices := a } := by
  unfold creaseIndicesStep
  repeat' split
  all_goals exact ⟨_, rfl⟩

theorem creaseLengthsStep_shape (env : Env) (g : GeoData) :
    ∃ a, creaseLengthsStep env g = { g with m_creaseLengths := a } := by
  unfold creaseLengthsStep
  repeat' split
  all_goals exact ⟨_, rfl⟩

theorem creaseSharpnessStep_shape (env : Env) (g : GeoData) :
    ∃ a, creaseSharpnessStep env g = { g with m_creaseSharpness := a } := by
  unfold creaseSharpnessStep
  repeat' split
  all_goals exact ⟨_, rfl⟩

theorem cornerIndicesStep_shape (env : Env) (g : GeoData) :
    ∃ a, cornerIndicesStep env g = { g with m_cornerIndices := a } := by
  unfold cornerIndicesStep
  repeat' split
  all_goals exact ⟨_, rfl⟩

theorem cornerSharpnessStep_shape (env : Env) (g : GeoData) :
    ∃ a, cornerSharpnessStep env g = { g with m_cornerSharpness := a } := by
  unfold cornerSharpnessStep
  repeat' split
  all_goals exact ⟨_, rfl⟩

theorem holeIndicesStep_shape (env : Env) (g : GeoData) :
    ∃ a, holeIndicesStep env g = { g with m_holeIndices := a } := by
  unfold holeIndicesStep
  repeat' split
  all_goals exact ⟨_, rfl⟩

theorem schemeNameStep_shape (t : UsdToken) (g : GeoData) :
    ∃ a, schemeNameStep t g = { g with m_subdivisionScheme := a } := by
  unfold schemeNameStep
  repeat' split
  all_goals exact ⟨_, rfl⟩

theorem interpolateBoundaryStep_shape (env : Env) (g : GeoData) :
    ∃ a, interpolateBoundaryStep env g = { g with m_interpolateBoundary := a } := by
  unfold interpolateBoundaryStep
  repeat' split
  all_goals exact ⟨_, rfl⟩

theorem faceVaryingStep_shape (env : Env) (g : GeoData) :
    ∃ a b, faceVaryingStep env g =
      { g with m_faceVaryingLinearInterpolation := a, m_propagateCorner := b } := by
  unfold faceVaryingStep
  repeat' split
  all_goals exact ⟨_, _, rfl⟩

theorem subdivTail_shape (env : Env) (t : UsdToken) (g : GeoData) :
    ∃ sub sch ib fv pc,
      faceVaryingStep env (interpolateBoundaryStep env
          (schemeNameStep t { g with m_isSubdivMesh := true })) =
        { g with m_isSubdivMesh := sub, m_subdivisionScheme := sch,
                 m_interpolateBoundary := ib, m_faceVaryingLinearInterpolation := fv,
                 m_propagateCorner := pc } := by
  obtain ⟨sch, h1⟩ := schemeNameStep_shape t { g with m_isSubdivMesh := true }
  rw [h1]
  obtain ⟨ib, h2⟩ := interpolateBoundaryStep_shape env _
  rw [h2]
  obtain ⟨fv, pc, h3⟩ := faceVaryingStep_shape env _
  rw [h3]
  exact ⟨_, _, _, _, _, rfl⟩

theorem schemePhase_shape (env : Env) (g : GeoData) :
    ∃ sub sch ib fv pc, schemePhase env g =
      { g with m_isSubdivMesh := sub, m_subdivisionScheme := sch,
               m_interpolateBoundary := ib, m_faceVaryingLinearInterpolation := fv,
               m_propagateCorner := pc } := by
  unfold schemePhase
  repeat' split
  all_goals first
    | exact ⟨_, _, _, _, _, rfl⟩
    | exact subdivTail_shape env _ g

theorem creaseIndicesStep_core (env : Env) (g : GeoData) :
    (creaseIndicesStep env g).m_vertexIndices = g.m_vertexIndices
  ∧ (creaseIndicesStep env g).m_faceCounts = g.m_faceCounts
  ∧ (creaseIndicesStep env g).m_vertices = g.m_vertices
  ∧ (creaseIndicesStep env g).m_uvIndices = g.m_uvIndices
  ∧ (creaseIndicesStep env g).m_uvs = g.m_uvs := by
  obtain ⟨a, h⟩ := creaseIndicesStep_shape env g
  rw [h]
  exact ⟨rfl, rfl, rfl, rfl, rfl⟩

theorem creaseLengthsStep_core (env : Env) (g : GeoData) :
    (creaseLengthsStep env g).m_vertexIndices = g.m_vertexIndices
  ∧ (creaseLengthsStep env g).m_faceCounts = g.m_faceCounts
  ∧ (creaseLengthsStep env g).m_vertices = g.m_vertices
  ∧ (creaseLengthsStep env g).m_uvIndices = g.m_uvIndices
  ∧ (creaseLengthsStep env g).m_uvs = g.m_uvs := by
  obtain ⟨a, h⟩ := creaseLengthsStep_shape env g
  rw [h]
  exact ⟨rfl, rfl, rfl, rfl, rfl⟩

theorem creaseSharpnessStep_core (env : Env) (g : GeoData) :
    (creaseSharpnessStep env g).m_vertexIndices = g.m_vertexIndices
  ∧ (creaseSharpnessStep env g).m_faceCounts = g.m_faceCounts
  ∧ (creaseSharpnessStep env g).m_vertices = g.m_vertices
  ∧ (creaseSharpnessStep env g).m_uvIndices = g.m_uvIndices
  ∧ (creaseSharpnessStep env g).m_uvs = g.m_uvs := by
  obtain ⟨a, h⟩ := creaseSharpnessStep_shape env g
  rw [h]
  exact ⟨rfl, rfl, rfl, rfl, rfl⟩

theorem cornerIndicesStep_core (env : Env) (g : GeoData) :
    (cornerIndicesStep env g).m_vertexIndices = g.m_vertexIndices
  ∧ (cornerIndicesStep env g).m_faceCounts = g.m_faceCounts
  ∧ (cornerIndicesStep env g).m_vertices = g.m_vertices
  ∧ (cornerIndicesStep env g).m_uvIndices = g.m_uvIndices
  ∧ (cornerIndicesStep env g).m_uvs = g.m_uvs := by
  obtain ⟨a, h⟩ := cornerIndicesStep_shape env g
  rw [h]
  exact ⟨rfl, rfl, rfl, rfl, rfl⟩

theorem cornerSharpnessStep_core (env : Env) (g : GeoData) :
    (cornerSharpnessStep env g).m_vertexIndices = g.m_vertexIndices
  ∧ (cornerSharpnessStep env g).m_faceCounts = g.m_faceCounts
  ∧ (cornerSharpnessStep env g).m_vertices = g.m_vertices
  ∧ (cornerSharpnessStep env g).m_uvIndices = g.m_uvIndices
  ∧ (cornerSharpnessStep env g).m_uvs = g.m_uvs := by
  obtain ⟨a, h⟩ := cornerSharpnessStep_shape env g
  rw [h]
  exact ⟨rfl, rfl, rfl, rfl, rfl⟩

theorem holeIndicesStep_core (env : Env) (g : GeoData) :
    (holeIndicesStep env g).m_vertexIndices = g.m_vertexIndices
  ∧ (holeIndicesStep env g).m_faceCounts = g.m_faceCounts
  ∧ (holeIndicesStep env g).m_vertices = g.m_vertices
  ∧ (holeIndicesStep env g).m_uvIndices = g.m_uvIndices
  ∧ (holeIndicesStep env g).m_uvs = g.m_uvs := by
  obtain ⟨a, h⟩ := holeIndicesStep_shape env g
  rw [h]
  exact ⟨rfl, rfl, rfl, rfl, rfl⟩

theorem schemePhase_core (env : Env) (g : GeoData) :
    (schemePhase env g).m_vertexIndices = g.m_vertexIndices
  ∧ (schemePhase env g).m_faceCounts = g.m_faceCounts
  ∧ (schemePhase env g).m_vertices = g.m_vertices
  ∧ (schemePhase env g).m_uvIndices = g.m_uvIndices
  ∧ (schemePhase env g).m_uvs = g.m_uvs := by
  obtain ⟨sub, sch, ib, fv, pc, h⟩ := schemePhase_shape env g
  rw [h]
  exact ⟨rfl, rfl, rfl, rfl, rfl⟩

theorem subdivPhase_core (env : Env) (g : GeoData) :
    (subdivPhase env g).m_vertexIndices = g.m_vertexIndices
  ∧ (subdivPhase env g).m_faceCounts = g.m_faceCounts
  ∧ (subdivPhase env g).m_vertices = g.m_vertices
  ∧ (subdivPhase env g).m_uvIndices = g.m_uvIndices
  ∧ (subdivPhase env g).m_uvs = g.m_uvs := by
  obtain ⟨c1, c2, c3, c4, c5⟩ := creaseIndicesStep_core env g
  obtain ⟨d1, d2, d3, d4, d5⟩ := creaseLengthsStep_core env (creaseIndicesStep env g)
  obtain ⟨e1, e2, e3, e4, e5⟩ :=
    creaseSharpnessStep_core env (creaseLengthsStep env (creaseIndicesStep env g))
  obtain ⟨f1, f2, f3, f4, f5⟩ :=
    cornerIndicesStep_core env (creaseSharpnessStep env (creaseLengthsStep env
      (creaseIndicesStep env g)))
  obtain ⟨i1, i2, i3, i4, i5⟩ :=
    cornerSharpnessStep_core env (cornerIndicesStep env (creaseSharpnessStep env
      (creaseLengthsStep env (creaseIndicesStep env g))))
  obtain ⟨j1, j2, j3, j4, j5⟩ :=
    holeIndicesStep_core env (cornerSharpnessStep env (cornerIndicesStep env
      (creaseSharpnessStep env (creaseLengthsStep env (creaseIndicesStep env g)))))
  obtain ⟨s1, s2, s3, s4, s5⟩ :=
    schemePhase_core env
      { holeIndicesStep env (cornerSharpnessStep env (cornerIndicesStep env
          (creaseSharpnessStep env (creaseLengthsStep env (creaseIndicesStep env g)))))
        with m_isSubdivMesh := false }
  exact ⟨s1.trans (j1.trans (i1.trans (f1.trans (e1.trans (d1.trans c1))))),
         s2.trans (j2.trans (i2.trans (f2.trans (e2.trans (d2.trans c2))))),
         s3.trans (j3.trans (i3.trans (f3.trans (e3.trans (d3.trans c3))))),
         s4.trans (j4.trans (i4.trans (f4.trans (e4.trans (d4.trans c4))))),
         s5.trans (j5.trans (i5.trans (f5.trans (e5.trans (d5.trans c5)))))⟩

theorem creaseIndicesStep_subdiv (env : Env) (g : GeoData) :
    (creaseIndicesStep env g).m_isSubdivMesh = g.m_isSubdivMesh
  ∧ (creaseIndicesStep env g).m_subdivisionScheme = g.m_subdivisionScheme
  ∧ (creaseIndicesStep env g).m_interpolateBoundary = g.m_interpolateBoundary
  ∧ (creaseIndicesStep env g).m_faceVaryingLinearInterpolation = g.m_faceVaryingLinearInterpolation
  ∧ (creaseIndicesStep env g).m_propagateCorner = g.m_propagateCorner := by
  obtain ⟨a, h⟩ := creaseIndicesStep_shape env g
  rw [h]
  exact ⟨rfl, rfl, rfl, rfl, rfl⟩

theorem creaseLengthsStep_subdiv (env : Env) (g : GeoData) :
    (creaseLengthsStep env g).m_isSubdivMesh = g.m_isSubdivMesh
  ∧ (creaseLengthsStep env g).m_subdivisionScheme = g.m_subdivisionScheme
  ∧ (creaseLengthsStep env g).m_interpolateBoundary = g.m_interpolateBoundary
  ∧ (creaseLengthsStep env g).m_faceVaryingLinearInterpolation = g.m_faceVaryingLinearInterpolation
  ∧ (creaseLengthsStep env g).m_propagateCorner = g.m_propagateCorner := by
  obtain ⟨a, h⟩ := creaseLengthsStep_shape env g
  rw [h]
  exact ⟨rfl, rfl, rfl, rfl, rfl⟩

theorem creaseSharpnessStep_subdiv (env : Env) (g : GeoData) :
    (creaseSharpnessStep env g).m_isSubdivMesh = g.m_isSubdivMesh
  ∧ (creaseSharpnessStep env g).m_subdivisionScheme = g.m_subdivisionScheme
  ∧ (creaseSharpnessStep env g).m_interpolateBoundary = g.m_interpolateBoundary
  ∧ (creaseSharpnessStep env g).m_faceVaryingLinearInterpolation = g.m_faceVaryingLinearInterpolation
  ∧ (creaseSharpnessStep env g).m_propagateCorner = g.m_propagateCorner := by
  obtain ⟨a, h⟩ := creaseSharpnessStep_shape env g
  rw [h]
  exact ⟨rfl, rfl, rfl, rfl, rfl⟩

theorem cornerIndicesStep_subdiv (env : Env) (g : GeoData) :
    (cornerIndicesStep env g).m_isSubdivMesh = g.m_isSubdivMesh
  ∧ (cornerIndicesStep env g).m_subdivisionScheme = g.m_subdivisionScheme
  ∧ (cornerIndicesStep env g).m_interpolateBoundary = g.m_interpolateBoundary
  ∧ (cornerIndicesStep env g).m_faceVaryingLinearInterpolation = g.m_faceVaryingLinearInterpolation
  ∧ (cornerIndicesStep env g).m_propagateCorner = g.m_propagateCorner := by
  obtain ⟨a, h⟩ := cornerIndicesStep_shape env g
  rw [h]
  exact ⟨rfl, rfl, rfl, rfl, rfl⟩

theorem cornerSharpnessStep_subdiv (env : Env) (g : GeoData) :
    (cornerSharpnessStep env g).m_isSubdivMesh = g.m_isSubdivMesh
  ∧ (cornerSharpnessStep env g).m_subdivisionScheme = g.m_subdivisionScheme
  ∧ (cornerSharpnessStep env g).m_interpolateBoundary = g.m_interpolateBoundary
  ∧ (cornerSharpnessStep env g).m_faceVaryingLinearInterpolation = g.m_faceVaryingLinearInterpolation
  ∧ (cornerSharpnessStep env g).m_propagateCorner = g.m_propagateCorner := by
  obtain ⟨a, h⟩ := cornerSharpnessStep_shape env g
  rw [h]
  exact ⟨rfl, rfl, rfl, rfl, rfl⟩

theorem holeIndicesStep_subdiv (env : Env) (g : GeoData) :
    (holeIndicesStep env g).m_isSubdivMesh = g.m_isSubdivMesh
  ∧ (holeIndicesStep env g).m_subdivisionScheme = g.m_subdivisionScheme
  ∧ (holeIndicesStep env g).m_interpolateBoundary = g.m_interpolateBoundary
  ∧ (holeIndicesStep env g).m_faceVaryingLinearInterpolation = g.m_faceVaryingLinearInterpolation
  ∧ (holeIndicesStep env g).m_propagateCorner = g.m_propagateCorner := by
  obtain ⟨a, h⟩ := holeIndicesStep_shape env g
  rw [h]
  exact ⟨rfl, rfl, rfl, rfl, rfl⟩

theorem creaseChain_subdiv (env : Env) (g : GeoData) (hd : subdivDefaults g) :
    subdivDefaults
      { holeIndicesStep env (cornerSharpnessStep env (cornerIndicesStep env
          (creaseSharpnessStep env (creaseLengthsStep env (creaseIndicesStep env g)))))
        with m_isSubdivMesh := false } := by
  obtain ⟨c1, c2, c3, c4, c5⟩ := creaseIndicesStep_subdiv env g
  obtain ⟨d1, d2, d3, d4, d5⟩ := creaseLengthsStep_subdiv env (creaseIndicesStep env g)
  obtain ⟨e1, e2, e3, e4, e5⟩ :=
    creaseSharpnessStep_subdiv env (creaseLengthsStep env (creaseIndicesStep env g))
  obtain ⟨f1, f2, f3, f4, f5⟩ :=
    cornerIndicesStep_subdiv env (creaseSharpnessStep env (creaseLengthsStep env
      (creaseIndicesStep env g)))
  obtain ⟨i1, i2, i3, i4, i5⟩ :=
    cornerSharpnessStep_subdiv env (cornerIndicesStep env (creaseSharpnessStep env
      (creaseLengthsStep env (creaseIndicesStep env g))))
  obtain ⟨j1, j2, j3, j4, j5⟩ :=
    holeIndicesStep_subdiv env (cornerSharpnessStep env (cornerIndicesStep env
      (creaseSharpnessStep env (creaseLengthsStep env (creaseIndicesStep env g)))))
  obtain ⟨h1, h2, h3, h4, h5⟩ := hd
  exact ⟨rfl,
         j2.trans (i2.trans (f2.trans (e2.trans (d2.trans (c2.trans h2))))),
         j3.trans (i3.trans (f3.trans (e3.trans (d3.trans (c3.trans h3))))),
         j4.trans (i4.trans (f4.trans (e4.trans (d4.trans (c4.trans h4))))),
         j5.trans (i5.trans (f5.trans (e5.trans (d5.trans (c5.trans h5)))))⟩

theorem ctor_cases (env : Env) (uvSet : String) (frames : List Nat) (flag : Bool) :
    subdivDefaults (GeoDataCtor env uvSet frames flag).1
  ∨ ∃ g : GeoData, (GeoDataCtor env uvSet frames flag).1 = subdivPhase env g
      ∧ subdivDefaults g := by
  simp only [GeoDataCtor]
  split
  · exact Or.inl ⟨rfl, rfl, rfl, rfl, rfl⟩
  · obtain ⟨vi, fc, fsi, hT⟩ :=
      readTopologySteps_shape env (topoTimeChoice env.numFaceIndexSamples) {}
    cases hTe : readTopologySteps env (topoTimeChoice env.numFaceIndexSamples) {} with
    | error r =>
      obtain ⟨g1, log1⟩ := r
      rw [hTe] at hT
      simp only [hTe]
      left
      rw [show g1 = _ from hT]
      exact ⟨rfl, rfl, rfl, rfl, rfl⟩
    | ok g1 =>
      rw [hTe] at hT
      simp only [hTe]
      have hd1 : subdivDefaults g1 := by
        rw [show g1 = _ from hT]
        exact ⟨rfl, rfl, rfl, rfl, rfl⟩
      obtain ⟨ui, uv, hU⟩ :=
        uvResolveStep_shape env uvSet (isTopologyVaryingOf env.numFaceIndexSamples) flag g1
      cases hUe : uvResolveStep env uvSet (isTopologyVaryingOf env.numFaceIndexSamples) flag g1 with
      | error r2 =>
        obtain ⟨g2, log2⟩ := r2
        rw [hUe] at hU
        simp only [hUe]
        left
        rw [show g2 = _ from hU]
        exact hd1
      | ok g2 =>
        rw [hUe] at hU
        simp only [hUe]
        have hd2 : subdivDefaults g2 := by
          rw [show g2 = _ from hU]
          exact hd1
        obtain ⟨ns, ni, hN⟩ :=
          normalsStep_shape env (topoTimeChoice env.numFaceIndexSamples) g2
        have hd3 : subdivDefaults
            (normalsStep env (topoTimeChoice env.numFaceIndexSamples) g2) := by
          rw [hN]
          exact hd2
        obtain ⟨m, hB⟩ := bakeFramesStep_shape env frames
          (normalsStep env (topoTimeChoice env.numFaceIndexSamples) g2)
        cases hBe : bakeFramesStep env
            (normalsStep env (topoTimeChoice env.numFaceIndexSamples) g2) frames with
        | error r3 =>
          obtain ⟨g3, log3⟩ := r3
          rw [hBe] at hB
          simp only [hBe]
          left
          rw [show g3 = _ from hB]
          exact hd3
        | ok g4 =>
          rw [hBe] at hB
          simp only [hBe]
          right
          refine ⟨g4, rfl, ?_⟩
          rw [show g4 = _ from hB]
          exact hd3

theorem schemePhase_scheme_none (env : Env) (g : GeoData)
    (hs : env.subdivisionScheme = Option.some UsdToken.tnone)
    (hd : subdivDefaults g) : subdivDefaults (schemePhase env g) := by
  unfold schemePhase
  rw [hs]
  exact ⟨rfl, hd.2.1, hd.2.2.1, hd.2.2.2.1, hd.2.2.2.2⟩

theorem subdivPhase_scheme_none (env : Env) (g : GeoData)
    (hs : env.subdivisionScheme = Option.some UsdToken.tnone)
    (hd : subdivDefaults g) : subdivDefaults (subdivPhase env g) :=
  schemePhase_scheme_none env _ hs (creaseChain_subdiv env g hd)

theorem subdivDefaults_range (g : GeoData) (hd : subdivDefaults g) :
    subdivCodesInRange g :=
  ⟨Or.inl hd.2.2.1, Or.inl hd.2.2.2.1, Or.inl hd.2.2.2.2, Or.inl hd.2.1⟩

theorem schemeNameStep_sch (t : UsdToken) (g : GeoData) :
    (schemeNameStep t g).m_subdivisionScheme = g.m_subdivisionScheme
  ∨ (schemeNameStep t g).m_subdivisionScheme = "catmullClark"
  ∨ (schemeNameStep t g).m_subdivisionScheme = "loop"
  ∨ (schemeNameStep t g).m_subdivisionScheme = "bilinear" := by
  unfold schemeNameStep
  repeat' split
  all_goals first
    | exact Or.inl rfl
    | exact Or.inr (Or.inl rfl)
    | exact Or.inr (Or.inr (Or.inl rfl))
    | exact Or.inr (Or.inr (Or.inr rfl))

theorem schemeNameStep_pres (t : UsdToken) (g : GeoData) :
    (schemeNameStep t g).m_interpolateBoundary = g.m_interpolateBoundary
  ∧ (schemeNameStep t g).m_faceVaryingLinearInterpolation = g.m_faceVaryingLinearInterpolation
  ∧ (schemeNameStep t g).m_propagateCorner = g.m_propagateCorner := by
  obtain ⟨a, h⟩ := schemeNameStep_shape t g
  rw [h]
  exact ⟨rfl, rfl, rfl⟩

theorem interpolateBoundaryStep_ib (env : Env) (g : GeoData) :
    (interpolateBoundaryStep env g).m_interpolateBoundary = g.m_interpolateBoundary
  ∨ (interpolateBoundaryStep env g).m_interpolateBoundary = 0
  ∨ (interpolateBoundaryStep env g).m_interpolateBoundary = 1
  ∨ (interpolateBoundaryStep env g).m_interpolateBoundary = 2 := by
  unfold interpolateBoundaryStep
  repeat' split
  all_goals first
    | exact Or.inl rfl
    | exact Or.inr (Or.inl rfl)
    | exact Or.inr (Or.inr (Or.inl rfl))
    | exact Or.inr (Or.inr (Or.inr rfl))

theorem interpolateBoundaryStep_pres (env : Env) (g : GeoData) :
    (interpolateBoundaryStep env g).m_subdivisionScheme = g.m_subdivisionScheme
  ∧ (interpolateBoundaryStep env g).m_faceVaryingLinearInterpolation = g.m_faceVaryingLinearInterpolation
  ∧ (interpolateBoundaryStep env g).m_propagateCorner = g.m_propagateCorner := by
  obtain ⟨a, h⟩ := interpolateBoundaryStep_shape env g
  rw [h]
  exact ⟨rfl, rfl, rfl⟩

theorem faceVaryingStep_range (env : Env) (g : GeoData) :
    ((faceVaryingStep env g).m_faceVaryingLinearInterpolation = g.m_faceVaryingLinearInterpolation
      ∨ (faceVaryingStep env g).m_faceVaryingLinearInterpolation = 0
      ∨ (faceVaryingStep env g).m_faceVaryingLinearInterpolation = 1
      ∨ (faceVaryingStep env g).m_faceVaryingLinearInterpolation = 2
      ∨ (faceVaryingStep env g).m_faceVaryingLinearInterpolation = 3)
  ∧ ((faceVaryingStep env g).m_propagateCorner = g.m_propagateCorner
      ∨ (faceVaryingStep env g).m_propagateCorner = 0
      ∨ (faceVaryingStep env g).m_propagateCorner = 1) := by
  unfold faceVaryingStep
  repeat' split
  all_goals constructor
  all_goals first
    | exact Or.inl rfl
    | exact Or.inr (Or.inl rfl)
    | exact Or.inr (Or.inr (Or.inl rfl))
    | exact Or.inr (Or.inr rfl)
    | exact Or.inr (Or.inr (Or.inr (Or.inl rfl)))
    | exact Or.inr (Or.inr (Or.inr (Or.inr rfl)))

theorem faceVaryingStep_pres (env : Env) (g : GeoData) :
    (faceVaryingStep env g).m_subdivisionScheme = g.m_subdivisionScheme
  ∧ (faceVaryingStep env g).m_interpolateBoundary = g.m_interpolateBoundary := by
  obtain ⟨a, b, h⟩ := faceVaryingStep_shape env g
  rw [h]
  exact ⟨rfl, rfl⟩

theorem subdivTail_range (env : Env) (t : UsdToken) (g : GeoData) (hd : subdivDefaults g) :
    subdivCodesInRange
      (faceVaryingStep env (interpolateBoundaryStep env
        (schemeNameStep t { g with m_isSubdivMesh := true }))) := by
  have hsch0 := hd.2.1
  have hib0 := hd.2.2.1
  have hfv0 := hd.2.2.2.1
  have hpc0 := hd.2.2.2.2
  obtain ⟨sp1, sp2, sp3⟩ := schemeNameStep_pres t { g with m_isSubdivMesh := true }
  obtain ⟨ip1, ip2, ip3⟩ :=
    interpolateBoundaryStep_pres env (schemeNameStep t { g with m_isSubdivMesh := true })
  obtain ⟨fp1, fp2⟩ := faceVaryingStep_pres env
    (interpolateBoundaryStep env (schemeNameStep t { g with m_isSubdivMesh := true }))
  refine ⟨?_, ?_, ?_, ?_⟩
  · rcases interpolateBoundaryStep_ib env (schemeNameStep t { g with m_isSubdivMesh := true })
      with h | h | h | h
    · exact Or.inl (fp2.trans (h.trans (sp1.trans hib0)))
    · exact Or.inl (fp2.trans h)
    · exact Or.inr (Or.inl (fp2.trans h))
    · exact Or.inr (Or.inr (fp2.trans h))
  · rcases (faceVaryingStep_range env
        (interpolateBoundaryStep env (schemeNameStep t { g with m_isSubdivMesh := true }))).1
      with h | h | h | h | h
    · exact Or.inl (h.trans (ip2.trans (sp2.trans hfv0)))
    · exact Or.inl h
    · exact Or.inr (Or.inl h)
    · exact Or.inr (Or.inr (Or.inl h))
    · exact Or.inr (Or.inr (Or.inr h))
  · rcases (faceVaryingStep_range env
        (interpolateBoundaryStep env (schemeNameStep t { g with m_isSubdivMesh := true }))).2
      with h | h | h
    · exact Or.inl (h.trans (ip3.trans (sp3.trans hpc0)))
    · exact Or.inl h
    · exact Or.inr h
  · rcases schemeNameStep_sch t { g with m_isSubdivMesh := true } with h | h | h | h
    · exact Or.inl ((fp1.trans ip1).trans (h.trans hsch0))
    · exact Or.inr (Or.inl ((fp1.trans ip1).trans h))
    · exact Or.inr (Or.inr (Or.inl ((fp1.trans ip1).trans h)))
    · exact Or.inr (Or.inr (Or.inr ((fp1.trans ip1).trans h)))

theorem schemePhase_range (env : Env) (g : GeoData) (hd : subdivDefaults g) :
    subdivCodesInRange (schemePhase env g) := by
  unfold schemePhase
  repeat' split
  all_goals first
    | exact subdivDefaults_range g hd
    | exact subdivTail_range env _ g hd

theorem subdivPhase_range (env : Env) (g : GeoData) (hd : subdivDefaults g) :
    subdivCodesInRange (subdivPhase env g) :=
  schemePhase_range env _ (creaseChain_subdiv env g hd)


/-- C1: counterexample.  The claim says the boolean-convertibility check
returns true whenever SOME frame of the vertex map has a non-empty sequence
and `vertexIndices` is non-empty, "regardless of which frame key sorts
first".  Extracting with a point read that succeeds with an empty array at
frame 1 and a non-empty array at frame 2 produces exactly such a snapshot,
and the check returns false, because `operator bool` inspects only
`m_vertices.begin()` — the smallest-keyed frame. -/
theorem toBool_some_frame_counterexample :
    (∃ e ∈ (GeoDataCtor envC1 "" [1, 2] true).1.m_vertices, e.2 ≠ [])
  ∧ (GeoDataCtor envC1 "" [1, 2] true).1.m_vertexIndices ≠ []
  ∧ GeoData.toBool (GeoDataCtor envC1 "" [1, 2] true).1 = false := by decide

/-- C1 (amended): the boolean-convertibility check returns true iff the
vertex map is non-empty, the vertex sequence of its FIRST (smallest-keyed)
frame is non-empty, and `vertexIndices` is non-empty. -/
theorem toBool_iff_first_frame (g : GeoData) :
    GeoData.toBool g = true ↔
      (g.m_vertices ≠ [] ∧ g.m_vertices.headI.2 ≠ [] ∧ g.m_vertexIndices ≠ []) := by
  simp [GeoData.toBool, List.length_pos, and_assoc]

/-- C3: counterexample.  The claim says a node is topology-varying iff its
face-vertex-index attribute carries MORE than one time sample.  The code
(line 91) tests `GetNumTimeSamples() >= 1`: a node with exactly one sample
is classified topology-varying, and its topology reads use the earliest
sample, not the evaluation default. -/
theorem topologyVarying_single_sample_counterexample :
    isTopologyVaryingOf 1 = true ∧ ¬ (1 < 1)
  ∧ topoTimeChoice 1 = TimeChoice.earliest
  ∧ topoTimeChoice 1 ≠ TimeChoice.default := by decide

/-- C3 (amended): a node is classified topology-varying iff its
face-vertex-index attribute carries at least one time sample, and exactly in
that case the topology reads use the earliest time sample. -/
theorem topologyVarying_iff_ge_one (n : Nat) :
    (isTopologyVaryingOf n = true ↔ 1 ≤ n)
  ∧ (topoTimeChoice n = TimeChoice.earliest ↔ 1 ≤ n) := by
  unfold topoTimeChoice isTopologyVaryingOf
  by_cases h : 1 ≤ n <;> simp [h]

/-- C4: counterexample.  The claim says the UV value array is read at the
evaluation default for a non-topology-varying mesh, and that a failed read
logs "could not read uvs" and stops.  `envC4` is non-topology-varying and
its UV primvar's value array is unreadable at the evaluation default (the
claimed read time) yet readable at the earliest sample; the actual
extraction succeeds with a populated `m_uvs` and an empty log, so the value
read is not performed at the claimed time. -/
theorem uvValues_read_time_counterexample :
    isTopologyVaryingOf envC4.numFaceIndexSamples = false
  ∧ pvNoDefault.values
      (uvValuesTimeChoiceClaimed (isTopologyVaryingOf envC4.numFaceIndexSamples)) = Option.none
  ∧ (GeoDataCtor envC4 "st" [1] true).2 = []
  ∧ (GeoDataCtor envC4 "st" [1] true).1.m_uvs = [0, 0, 1, 0, 0, 1] := by decide

/-- C4 (amended): the UV value array is always read at the earliest time
sample, regardless of topology mode (only the index read follows the
topology rule); if that earliest-sample read fails, "could not read uvs" is
logged and extraction stops, and if it succeeds the flattened values are
stored. -/
theorem uvResolve_earliest_read (env : Env) (uvSet : String) (isTV flag : Bool)
    (g : GeoData) (pv : UvPrimvarData)
    (hpv : env.uvPrimvar = Option.some pv)
    (hacc : uvAccepted flag pv = true)
    (hlen : 0 < uvSet.length) :
    (pv.values TimeChoice.earliest = Option.none →
      uvResolveStep env uvSet isTV flag g =
        .error (g, ["discarding because could not read uvs on " ++ env.primPath]))
  ∧ (∀ vs, pv.values TimeChoice.earliest = Option.some vs →
      ∃ g', uvResolveStep env uvSet isTV flag g = .ok g' ∧ g'.m_uvs = flatten2 vs) := by
  constructor
  · intro hval
    unfold uvResolveStep
    rw [hpv]
    simp [hlen, hacc, hval]
  · intro vs hval
    refine ⟨uvOkState pv isTV vs g, ?_, rfl⟩
    unfold uvResolveStep
    rw [hpv]
    simp [hlen, hacc, hval]

theorem uvResolve_earliest_read_witness :
    uvResolveStep envNoUvValues "st" false true {} =
      .error ({}, ["discarding because could not read uvs on /root/mesh"]) :=
  (uvResolve_earliest_read envNoUvValues "st" false true {} pvNoValues rfl
    (by decide) (by decide)).1 rfl

theorem uvResolveStep_ok_eq (env : Env) (uvSet : String) (isTV flag : Bool)
    (g : GeoData) (pv : UvPrimvarData) (vs : List (ℚ × ℚ))
    (hpv : env.uvPrimvar = Option.some pv)
    (hacc : uvAccepted flag pv = true)
    (hlen : 0 < uvSet.length)
    (hvals : pv.values TimeChoice.earliest = Option.some vs) :
    uvResolveStep env uvSet isTV flag g = .ok (uvOkState pv isTV vs g) := by
  unfold uvResolveStep
  rw [hpv]
  simp [hlen, hacc, hvals]

theorem uvIndicesStep_identity (pv : UvPrimvarData) (isTV : Bool) (g : GeoData)
    (hidx : pv.indices (if isTV then TimeChoice.earliest else TimeChoice.default) =
      Option.none) :
    uvIndicesStep pv isTV g =
      { g with m_uvIndices := identityIndices g.m_vertexIndices.length } := by
  unfold uvIndicesStep
  rw [hidx]

theorem ctor_topo_fields (env : Env) (uvSet : String) (frames : List Nat) (flag : Bool)
    (vi fc : List Int)
    (hmesh : env.isMesh = true)
    (hvi : env.readFaceVertexIndices (topoTimeChoice env.numFaceIndexSamples) = Option.some vi)
    (hfc : env.readFaceVertexCounts (topoTimeChoice env.numFaceIndexSamples) = Option.some fc) :
    (GeoDataCtor env uvSet frames flag).1.m_vertexIndices = vi
  ∧ (GeoDataCtor env uvSet frames flag).1.m_faceCounts = fc := by
  have hT : readTopologySteps env (topoTimeChoice env.numFaceIndexSamples) ({} : GeoData) =
      .ok { ({} : GeoData) with
            m_vertexIndices := vi
            m_faceCounts := fc
            m_faceSelectionIndices := identityIndices fc.length } := by
    unfold readTopologySteps
    rw [hvi, hfc]
  have hcond : ¬ (env.isMesh = false) := by simp [hmesh]
  simp only [GeoDataCtor]
  rw [if_neg hcond]
  cases hTe : readTopologySteps env (topoTimeChoice env.numFaceIndexSamples) {} with
  | error r =>
    rw [hT] at hTe
    exact absurd hTe (by simp)
  | ok g1 =>
    simp only []
    rw [hT] at hTe
    injection hTe with hg1
    cases hUe : uvResolveStep env uvSet (isTopologyVaryingOf env.numFaceIndexSamples) flag g1 with
    | error r2 =>
      simp only []
      obtain ⟨g2, log2⟩ := r2
      obtain ⟨ui, uv, hU⟩ :=
        uvResolveStep_shape env uvSet (isTopologyVaryingOf env.numFaceIndexSamples) flag g1
      rw [hUe] at hU
      constructor
      · rw [show g2 = _ from hU, ← hg1]
      · rw [show g2 = _ from hU, ← hg1]
    | ok g2 =>
      simp only []
      obtain ⟨ui, uv, hU⟩ :=
        uvResolveStep_shape env uvSet (isTopologyVaryingOf env.numFaceIndexSamples) flag g1
      rw [hUe] at hU
      obtain ⟨ns, ni, hN⟩ :=
        normalsStep_shape env (topoTimeChoice env.numFaceIndexSamples) g2
      obtain ⟨m, hB⟩ := bakeFramesStep_shape env frames
        (normalsStep env (topoTimeChoice env.numFaceIndexSamples) g2)
      cases hBe : bakeFramesStep env
          (normalsStep env (topoTimeChoice env.numFaceIndexSamples) g2) frames with
      | error r3 =>
        simp only []
        obtain ⟨g3, log3⟩ := r3
        rw [hBe] at hB
        constructor
        · rw [show g3 = _ from hB, hN, show g2 = _ from hU, ← hg1]
        · rw [show g3 = _ from hB, hN, show g2 = _ from hU, ← hg1]
      | ok g4 =>
        simp only []
        rw [hBe] at hB
        obtain ⟨p1, p2, p3, p4, p5⟩ := subdivPhase_core env g4
        constructor
        · rw [p1, show g4 = _ from hB, hN, show g2 = _ from hU, ← hg1]
        · rw [p2, show g4 = _ from hB, hN, show g2 = _ from hU, ← hg1]

/-- C5: counterexample.  The extractor performs no cross-validation between
`faceCounts` and `vertexIndices`: `envC5` provides face counts `[2]` next to
three vertex indices, every read succeeds, and the resulting snapshot is
boolean-true while the sum of `faceCounts` (2) differs from
`vertexIndices.length` (3). -/
theorem faceCounts_sum_counterexample :
    GeoData.toBool (GeoDataCtor envC5 "" [1] true).1 = true
  ∧ (GeoDataCtor envC5 "" [1] true).1.m_faceCounts.sum ≠
      ((GeoDataCtor envC5 "" [1] true).1.m_vertexIndices.length : Int) := by decide

/-- C5 (amended): `faceCounts` and `vertexIndices` are verbatim copies of
the source arrays — the extractor never checks the sum invariant — so a
boolean-true snapshot satisfies it exactly when the source arrays do: if the
face-count array read from the node sums to the length of its vertex-index
array, the snapshot satisfies the invariant. -/
theorem faceCounts_sum_conditional (env : Env) (uvSet : String) (frames : List Nat)
    (flag : Bool) (vi fc : List Int)
    (hvi : env.readFaceVertexIndices (topoTimeChoice env.numFaceIndexSamples) = Option.some vi)
    (hfc : env.readFaceVertexCounts (topoTimeChoice env.numFaceIndexSamples) = Option.some fc)
    (hsum : fc.sum = (vi.length : Int))
    (hbool : GeoData.toBool (GeoDataCtor env uvSet frames flag).1 = true) :
    (GeoDataCtor env uvSet frames flag).1.m_faceCounts.sum =
      ((GeoDataCtor env uvSet frames flag).1.m_vertexIndices.length : Int) := by
  by_cases hmesh : env.isMesh = true
  · obtain ⟨h1, h2⟩ := ctor_topo_fields env uvSet frames flag vi fc hmesh hvi hfc
    rw [h1, h2, hsum]
  · have hmesh2 : env.isMesh = false := by
      revert hmesh
      cases env.isMesh <;> simp
    simp [GeoDataCtor, hmesh2, GeoData.toBool] at hbool

theorem faceCounts_sum_conditional_witness :
    (GeoDataCtor baseEnv "" [1] true).1.m_faceCounts.sum =
      ((GeoDataCtor baseEnv "" [1] true).1.m_vertexIndices.length : Int) :=
  faceCounts_sum_conditional baseEnv "" [1] true [0, 1, 2] [3] rfl rfl (by decide) (by decide)

/-- C6: for an accepted, readable UV-set primvar that carries no explicit
index array, the stored `uvIndices` is the identity sequence
`[0, 1, ..., vertexIndices.length - 1]`. -/
theorem uvIndices_identity_fallback (env : Env) (uvSet : String) (frames : List Nat)
    (flag : Bool) (vi fc : List Int) (pv : UvPrimvarData) (vs : List (ℚ × ℚ))
    (hmesh : env.isMesh = true)
    (hvi : env.readFaceVertexIndices (topoTimeChoice env.numFaceIndexSamples) = Option.some vi)
    (hfc : env.readFaceVertexCounts (topoTimeChoice env.numFaceIndexSamples) = Option.some fc)
    (hlen : 0 < uvSet.length)
    (hpv : env.uvPrimvar = Option.some pv)
    (hacc : uvAccepted flag pv = true)
    (hvals : pv.values TimeChoice.earliest = Option.some vs)
    (hidx : pv.indices (if isTopologyVaryingOf env.numFaceIndexSamples then TimeChoice.earliest
        else TimeChoice.default) = Option.none) :
    (GeoDataCtor env uvSet frames flag).1.m_uvIndices =
      (List.range (GeoDataCtor env uvSet frames flag).1.m_vertexIndices.length).map
        (fun x => (x : Int)) := by
  have hT : readTopologySteps env (topoTimeChoice env.numFaceIndexSamples) ({} : GeoData) =
      .ok { ({} : GeoData) with
            m_vertexIndices := vi
            m_faceCounts := fc
            m_faceSelectionIndices := identityIndices fc.length } := by
    unfold readTopologySteps
    rw [hvi, hfc]
  have hcond : ¬ (env.isMesh = false) := by simp [hmesh]
  simp only [GeoDataCtor]
  rw [if_neg hcond]
  cases hTe : readTopologySteps env (topoTimeChoice env.numFaceIndexSamples) {} with
  | error r =>
    rw [hT] at hTe
    exact absurd hTe (by simp)
  | ok g1 =>
    simp only []
    rw [hT] at hTe
    injection hTe with hg1
    rw [uvResolveStep_ok_eq env uvSet (isTopologyVaryingOf env.numFaceIndexSamples) flag g1
      pv vs hpv hacc hlen hvals]
    simp only []
    obtain ⟨ns, ni, hN⟩ := normalsStep_shape env (topoTimeChoice env.numFaceIndexSamples)
      (uvOkState pv (isTopologyVaryingOf env.numFaceIndexSamples) vs g1)
    obtain ⟨m, hB⟩ := bakeFramesStep_shape env frames
      (normalsStep env (topoTimeChoice env.numFaceIndexSamples)
        (uvOkState pv (isTopologyVaryingOf env.numFaceIndexSamples) vs g1))
    cases hBe : bakeFramesStep env
        (normalsStep env (topoTimeChoice env.numFaceIndexSamples)
          (uvOkState pv (isTopologyVaryingOf env.numFaceIndexSamples) vs g1)) frames with
    | error r3 =>
      simp only []
      obtain ⟨g3, log3⟩ := r3
      rw [hBe] at hB
      rw [show g3 = _ from hB, hN]
      simp only [uvOkState]
      rw [uvIndicesStep_identity pv (isTopologyVaryingOf env.numFaceIndexSamples) g1 hidx,
        ← hg1]
      rfl
    | ok g4 =>
      simp only []
      rw [hBe] at hB
      obtain ⟨p1, p2, p3, p4, p5⟩ := subdivPhase_core env g4
      rw [p1, p4, show g4 = _ from hB, hN]
      simp only [uvOkState]
      rw [uvIndicesStep_identity pv (isTopologyVaryingOf env.numFaceIndexSamples) g1 hidx,
        ← hg1]
      rfl

theorem uvIndices_identity_fallback_witness :
    (GeoDataCtor envC4 "st" [1] true).1.m_uvIndices =
      (List.range (GeoDataCtor envC4 "st" [1] true).1.m_vertexIndices.length).map
        (fun x => (x : Int)) :=
  uvIndices_identity_fallback envC4 "st" [1] true [0, 1, 2] [3] pvNoDefault
    [(0, 0), (1, 0), (0, 1)] rfl rfl rfl (by decide) rfl (by decide) rfl rfl

/-- C7: if the subdivision-scheme token reads as "none", the constructed
snapshot has `isSubdivMesh = false`, an empty scheme name, and
boundary / face-varying / propagate-corner codes at their zero defaults,
whatever the boundary or face-varying attributes on the node say. -/
theorem scheme_none_defaults (env : Env) (uvSet : String) (frames : List Nat) (flag : Bool)
    (hs : env.subdivisionScheme = Option.some UsdToken.tnone) :
    (GeoDataCtor env uvSet frames flag).1.m_isSubdivMesh = false
  ∧ (GeoDataCtor env uvSet frames flag).1.m_subdivisionScheme = ""
  ∧ (GeoDataCtor env uvSet frames flag).1.m_interpolateBoundary = 0
  ∧ (GeoDataCtor env uvSet frames flag).1.m_faceVaryingLinearInterpolation = 0
  ∧ (GeoDataCtor env uvSet frames flag).1.m_propagateCorner = 0 := by
  rcases ctor_cases env uvSet frames flag with hd | ⟨g, he, hd⟩
  · exact hd
  · rw [he]
    exact subdivPhase_scheme_none env g hs hd

theorem scheme_none_defaults_witness :
    (GeoDataCtor envC7 "" [1] true).1.m_isSubdivMesh = false
  ∧ (GeoDataCtor envC7 "" [1] true).1.m_subdivisionScheme = ""
  ∧ (GeoDataCtor envC7 "" [1] true).1.m_interpolateBoundary = 0
  ∧ (GeoDataCtor envC7 "" [1] true).1.m_faceVaryingLinearInterpolation = 0
  ∧ (GeoDataCtor envC7 "" [1] true).1.m_propagateCorner = 0 :=
  scheme_none_defaults envC7 "" [1] true rfl

/-- C10: after any construction, the subdivision-metadata codes lie in their
fixed finite ranges: `interpolateBoundary ∈ {0, 1, 2}`,
`faceVaryingLinearInterpolation ∈ {0, 1, 2, 3}`, `propagateCorner ∈ {0, 1}`,
and the scheme name is one of "", "catmullClark", "loop", "bilinear". -/
theorem subdiv_codes_range (env : Env) (uvSet : String) (frames : List Nat) (flag : Bool) :
    ((GeoDataCtor env uvSet frames flag).1.m_interpolateBoundary = 0
      ∨ (GeoDataCtor env uvSet frames flag).1.m_interpolateBoundary = 1
      ∨ (GeoDataCtor env uvSet frames flag).1.m_interpolateBoundary = 2)
  ∧ ((GeoDataCtor env uvSet frames flag).1.m_faceVaryingLinearInterpolation = 0
      ∨ (GeoDataCtor env uvSet frames flag).1.m_faceVaryingLinearInterpolation = 1
      ∨ (GeoDataCtor env uvSet frames flag).1.m_faceVaryingLinearInterpolation = 2
      ∨ (GeoDataCtor env uvSet frames flag).1.m_faceVaryingLinearInterpolation = 3)
  ∧ ((GeoDataCtor env uvSet frames flag).1.m_propagateCorner = 0
      ∨ (GeoDataCtor env uvSet frames flag).1.m_propagateCorner = 1)
  ∧ ((GeoDataCtor env uvSet frames flag).1.m_subdivisionScheme = ""
      ∨ (GeoDataCtor env uvSet frames flag).1.m_subdivisionScheme = "catmullClark"
      ∨ (GeoDataCtor env uvSet frames flag).1.m_subdivisionScheme = "loop"
      ∨ (GeoDataCtor env uvSet frames flag).1.m_subdivisionScheme = "bilinear") := by
  rcases ctor_cases env uvSet frames flag with hd | ⟨g, he, hd⟩
  · exact subdivDefaults_range _ hd
  · rw [he]
    exact subdivPhase_range env g hd

/-- C8: during per-frame vertex baking, the first failed point read
early-returns with a log line, and the vertex map holds exactly the entries
baked for the earlier frames, all of which succeeded. -/
theorem bake_partial_state (env : Env) (g : GeoData) (pre rest : List Nat) (f : Nat)
    (hpre : ∀ fr ∈ pre, (env.readPoints fr).isSome = true)
    (hf : env.readPoints f = Option.none) :
    bakeFramesStep env g (pre ++ f :: rest) =
      .error
        ({ g with
           m_vertices := pre.foldl (fun m fr =>
              mapInsert fr (env.applyXform fr (flatten3 ((env.readPoints fr).getD []))) m)
             g.m_vertices },
         ["Failed getting faces on " ++ env.primName]) := by
  induction pre generalizing g with
  | nil =>
    simp only [List.nil_append, List.foldl_nil]
    unfold bakeFramesStep
    rw [hf]
  | cons p ps ih =>
    have hp : (env.readPoints p).isSome = true := hpre p (by simp)
    obtain ⟨pts, hpts⟩ := Option.isSome_iff_exists.mp hp
    simp only [List.cons_append, List.foldl_cons]
    unfold bakeFramesStep
    rw [hpts]
    simp only []
    rw [ih _ (fun fr hfr => hpre fr (List.mem_cons_of_mem p hfr))]
    rfl

theorem bake_partial_state_witness :
    (∀ fr ∈ [1, 2], (envC8.readPoints fr).isSome = true)
  ∧ envC8.readPoints 3 = Option.none
  ∧ bakeFramesStep envC8 {} ([1, 2] ++ 3 :: []) =
      .error ({ m_vertices := [(1, [0, 0, 0]), (2, [1, 1, 1])] },
              ["Failed getting faces on mesh"]) := by
  refine ⟨by decide, rfl, ?_⟩
  rw [bake_partial_state envC8 {} [1, 2] [] 3 (by decide) rfl]
  rfl

/-- C9: counterexample.  A present-but-empty environment variable does erase
the existing list: with the ignore variable set to the empty string, the
prior ignore list `["a"]` is replaced by the empty token list. -/
theorem initLists_present_empty_counterexample :
    (InitializePathSubstringLists (Option.some []) Option.none [['a']] [['b']]).1 = []
  ∧ (InitializePathSubstringLists (Option.some []) Option.none [['a']] [['b']]).1
      ≠ [['a']] := by decide

/-- C9 (amended): a present variable (even with an empty value) always
replaces the corresponding list with the comma-split of its value — the
empty value yields the empty list — and only an absent variable leaves the
existing list untouched. -/
theorem initLists_replacement (ignoreEnv requireEnv : Option (List Char))
    (ignoreList requireList : List (List Char)) :
    (ignoreEnv = Option.none →
      (InitializePathSubstringLists ignoreEnv requireEnv ignoreList requireList).1 = ignoreList)
  ∧ (∀ v, ignoreEnv = Option.some v →
      (InitializePathSubstringLists ignoreEnv requireEnv ignoreList requireList).1 =
        tfStringTokenize v)
  ∧ (requireEnv = Option.none →
      (InitializePathSubstringLists ignoreEnv requireEnv ignoreList requireList).2 = requireList)
  ∧ (∀ v, requireEnv = Option.some v →
      (InitializePathSubstringLists ignoreEnv requireEnv ignoreList requireList).2 =
        tfStringTokenize v) := by
  refine ⟨?_, ?_, ?_, ?_⟩
  · rintro rfl
    rfl
  · rintro v rfl
    rfl
  · rintro rfl
    cases ignoreEnv <;> rfl
  · rintro v rfl
    cases ignoreEnv <;> rfl

theorem initLists_replacement_witness :
    (InitializePathSubstringLists Option.none (Option.some ['a', ',', 'b'])
        [['x']] [['y']]).1 = [['x']]
  ∧ (InitializePathSubstringLists Option.none (Option.some ['a', ',', 'b'])
        [['x']] [['y']]).2 = tfStringTokenize ['a', ',', 'b'] :=
  ⟨(initLists_replacement Option.none (Option.some ['a', ',', 'b']) [['x']] [['y']]).1 rfl,
   (initLists_replacement Option.none (Option.some ['a', ',', 'b'])
      [['x']] [['y']]).2.2.2 ['a', ',', 'b'] rfl⟩

/-- C2: `TestPath` rejects any path when the require-list is non-empty and
none of its entries occurs as a substring; rejects any path containing an
ignore-list entry; and accepts when the require stage passes (empty
require-list or some entry matches) and no ignore entry occurs. -/
theorem testPath_spec (requireList ignoreList : List (List Char)) (path : List Char) :
    (requireList ≠ [] → (∀ s ∈ requireList, ¬ ∃ l r, path = l ++ s ++ r) →
        TestPath requireList ignoreList path = false)
  ∧ ((∃ s ∈ ignoreList, ∃ l r, path = l ++ s ++ r) →
        TestPath requireList ignoreList path = false)
  ∧ ((requireList = [] ∨ ∃ s ∈ requireList, ∃ l r, path = l ++ s ++ r) →
      (∀ s ∈ ignoreList, ¬ ∃ l r, path = l ++ s ++ r) →
        TestPath requireList ignoreList path = true) := by
  refine ⟨?_, ?_, ?_⟩
  · intro hne hnone
    have h1 : requireScan path requireList true = false := by
      rw [← Bool.not_eq_true, requireScan_eq_true_iff path requireList true hne]
      rintro ⟨s, hs, hc⟩
      exact hnone s hs ((containsSubstr_iff s path).mp hc)
    simp [TestPath, h1]
  · rintro ⟨s, hs, hsub⟩
    have h2 : ignoreScan path ignoreList = false := by
      rw [← Bool.not_eq_true, ignoreScan_eq_true_iff]
      intro hall
      have hcs : containsSubstr s path = true := (containsSubstr_iff s path).mpr hsub
      rw [hall s hs] at hcs
      exact Bool.false_ne_true hcs
    cases h1 : requireScan path requireList true with
    | false => simp [TestPath, h1]
    | true => simp [TestPath, h1, h2]
  · intro hreq hign
    have h1 : requireScan path requireList true = true := by
      cases hreq with
      | inl h => subst h; rfl
      | inr h =>
        rcases h with ⟨s, hs, hsub⟩
        rw [requireScan_eq_true_iff path requireList true (by rintro rfl; simp at hs)]
        exact ⟨s, hs, (containsSubstr_iff s path).mpr hsub⟩
    have h2 : ignoreScan path ignoreList = true := by
      rw [ignoreScan_eq_true_iff]
      intro s hs
      rw [← Bool.not_eq_true, containsSubstr_iff]
      exact hign s hs
    simp [TestPath, h1, h2]

theorem testPath_spec_witness :
    TestPath [['a']] [] ['b'] = false
  ∧ TestPath [] [['b']] ['a', 'b'] = false
  ∧ TestPath [['a']] [['c']] ['a'] = true := by
  refine ⟨(testPath_spec [['a']] [] ['b']).1 (by simp) ?_,
          (testPath_spec [] [['b']] ['a', 'b']).2.1 ⟨['b'], by simp, ['a'], [], rfl⟩,
          (testPath_spec [['a']] [['c']] ['a']).2.2 (Or.inr ⟨['a'], by simp, [], [], rfl⟩) ?_⟩
  · intro s hs
    rw [List.mem_singleton] at hs
    subst hs
    rw [← containsSubstr_iff]
    decide
  · intro s hs
    rw [List.mem_singleton] at hs
    subst hs
    rw [← containsSubstr_iff]
    decide
